import Mathlib

/-!
Verification of the napi HTTP control-plane (Go sources: main package and
routes/route_system.go) against its natural-language specification.

The Go code is shallowly embedded: pure helpers become Lean functions,
handlers become functions from an explicit environment (shell semantics,
process-run oracle, an association-list file system) to a status code,
a body and a list of externally visible effects.  HTTP statuses are plain
naturals (200, 400, 401, 429, 500).
-/

namespace Napi

/-! ## String utilities mirroring the Go standard library -/

/-- Whitespace predicate of Go `unicode.IsSpace` restricted to the code
points it recognises: tab, newline, vertical tab, form feed, carriage
return, space, next-line (U+0085) and no-break space (U+00A0). -/
def isSpaceChar (c : Char) : Bool :=
  c == ' ' || c == '\t' || c == '\n' || c == '\r' ||
  c.val == 11 || c.val == 12 || c.val == 0x85 || c.val == 0xA0

/-- Split a character list on a separator character; mirrors Go
`strings.Split` (keeps empty segments, always returns at least one). -/
def splitOnChar (sep : Char) : List Char → List (List Char)
  | [] => [[]]
  | c :: cs =>
    match splitOnChar sep cs with
    | [] => [[]]
    | r :: rs => if c == sep then [] :: r :: rs else (c :: r) :: rs

/-- Go `strings.Split` on the newline separator, on strings. -/
def splitOnNewline (s : String) : List String :=
  (splitOnChar '\n' s.data).map String.mk

/-- Accumulating worker for `fields`: splits around runs of whitespace. -/
def fieldsAux : List Char → List Char → List (List Char)
  | [], acc => if acc.isEmpty then [] else [acc.reverse]
  | c :: cs, acc =>
    if isSpaceChar c then
      if acc.isEmpty then fieldsAux cs []
      else acc.reverse :: fieldsAux cs []
    else fieldsAux cs (c :: acc)

/-- Go `strings.Fields`: the whitespace-separated fields of a string. -/
def fields (s : String) : List String :=
  (fieldsAux s.data []).map String.mk

/-- Does `l` start with `pat`? (character-list version) -/
def startsWithL : List Char → List Char → Bool
  | _, [] => true
  | [], _ :: _ => false
  | c :: cs, d :: ds => c == d && startsWithL cs ds

/-- Does `l` contain `pat` as a contiguous run? (character-list version) -/
def containsL : List Char → List Char → Bool
  | [], pat => pat.isEmpty
  | c :: cs, pat => startsWithL (c :: cs) pat || containsL cs pat

/-- Go `strings.Contains` on strings. -/
def strContains (s pat : String) : Bool :=
  containsL s.data pat.data

/-! ## Data model: parsed systemd units (routes/route_system.go) -/

/-- The `Unit` record of routes/route_system.go: one line of a
`systemctl list-units` listing. -/
structure Unit where
  UNIT : String
  LOAD : String
  ACTIVE : String
  SUB : String
  DESCRIPTION : String
deriving DecidableEq

/-! ## Process executor (executeCommand) -/

/-- Result of running a command line through the shell: what the external
process produced.  `exec.Command("sh", "-c", cmd).Output()` captures
`stdout`; `stderr` and the exit code decide the error. -/
structure ExecResult where
  stdout : String
  stderr : String
  exitCode : Nat
deriving DecidableEq

/-- Function `executeCommand` of routes/route_system.go: runs `command` through
`sh -c`, returns the captured standard output on success (exit code 0)
and an error otherwise (the Go code returns `("", err)`). -/
def executeCommand (sh : String → ExecResult) (command : String) :
    Except String String :=
  let r := sh command
  if r.exitCode = 0 then Except.ok r.stdout else Except.error "command failed"

/-! ## Unit parser (parseUnits) -/

/-- The loop body of `parseUnits`: walks the lines, skipping lines with
fewer than five whitespace-separated fields and lines whose first field
does not contain `unitType`, and otherwise emits a `Unit` built from the
first four fields with the rest rejoined by single spaces. -/
def parseUnitsList (unitType : String) : List String → List Napi.Unit
  | [] => []
  | line :: rest =>
    let fs := fields line
    if fs.length < 5 then parseUnitsList unitType rest
    else if !(strContains (fs.getD 0 "") unitType) then
      parseUnitsList unitType rest
    else
      Napi.Unit.mk (fs.getD 0 "") (fs.getD 1 "") (fs.getD 2 "") (fs.getD 3 "")
        (String.intercalate " " (fs.drop 4)) :: parseUnitsList unitType rest

/-- Function `parseUnits` of routes/route_system.go: splits the listing on
newlines and runs the loop; the Go function always returns a nil error,
hence the unconditional `Except.ok`. -/
def parseUnits (data unitType : String) : Except String (List Napi.Unit) :=
  Except.ok (parseUnitsList unitType (splitOnNewline data))

/-- Follows the spec's words (section 4.4, Unit Parser): split the
listing into lines; for each line with at least five whitespace-separated
fields whose first field contains the suffix, emit a Unit with the first
four fields as name/load/active/sub and the remainder rejoined with
single spaces as description; skip all other lines; keep input order. -/
def specParseUnits (data unitSuffix : String) : List Napi.Unit :=
  (splitOnNewline data).filterMap (fun line =>
    let fs := fields line
    if 5 ≤ fs.length ∧ strContains (fs.getD 0 "") unitSuffix = true then
      some (Napi.Unit.mk (fs.getD 0 "") (fs.getD 1 "") (fs.getD 2 "")
        (fs.getD 3 "") (String.intercalate " " (fs.drop 4)))
    else none)

/-! ## Externally visible side effects of the handlers -/

/-- One externally visible side effect: a process spawned directly with
an argument vector, a command line run through the shell, a file written,
or a file read. -/
inductive Effect
| spawn (argv : List String)
| shell (cmd : String)
| fileWrite (path content : String)
| fileRead (path : String)
deriving DecidableEq

/-- Status code plus the effects the handler performed. -/
structure HandlerResult where
  status : Nat
  effects : List Effect
deriving DecidableEq

/-! ## File system model (os.WriteFile / os.ReadFile) -/

/-- The file system as an association list from full paths to contents;
the most recent write for a path is the first hit. -/
def FS := List (String × String)

/-- Effect of a successful `os.WriteFile`: the path now maps to the new
content, shadowing any previous entry. -/
def fsWrite (fs : FS) (path content : String) : FS :=
  (path, content) :: fs

/-- Go `os.ReadFile`: the current content of the path, or `none` when the
file does not exist (the read then fails). -/
def fsRead (fs : FS) (path : String) : Option String :=
  (List.find? (fun e => e.1 == path) fs).map (fun e => e.2)

/-! ## Command handlers (routes/route_system.go) -/

/-- The service-listing command line run by `ListServices`. -/
def svcListCmd : String := "systemctl --user list-units --type=service --all"

/-- The socket-listing command line run by `ListServices`. -/
def sockListCmd : String := "systemctl --user list-units --type=socket --all"

/-- Body of a successful `ListServices` response: the parsed service
units and the parsed socket units, under the two keys of the JSON map. -/
structure ListResult where
  status : Nat
  body : Option (List Napi.Unit × List Napi.Unit)
  effects : List Effect
deriving DecidableEq

/-- Handler `ListServices`: runs the service listing, parses it, runs the socket
listing, parses it; any failing step aborts with a 500 and no body. -/
def ListServices (sh : String → ExecResult) : ListResult :=
  match executeCommand sh svcListCmd with
  | Except.error _ => ListResult.mk 500 none [Effect.shell svcListCmd]
  | Except.ok serviceStdout =>
    match parseUnits serviceStdout ".service" with
    | Except.error _ => ListResult.mk 500 none [Effect.shell svcListCmd]
    | Except.ok services =>
      match executeCommand sh sockListCmd with
      | Except.error _ =>
        ListResult.mk 500 none [Effect.shell svcListCmd, Effect.shell sockListCmd]
      | Except.ok socketStdout =>
        match parseUnits socketStdout ".socket" with
        | Except.error _ =>
          ListResult.mk 500 none [Effect.shell svcListCmd, Effect.shell sockListCmd]
        | Except.ok sockets =>
          ListResult.mk 200 (some (services, sockets))
            [Effect.shell svcListCmd, Effect.shell sockListCmd]

/-- Handler `StartService`: requires a non-empty `target` query parameter, then
runs `systemctl --user start target` directly (no shell); `runOk` is the
oracle saying whether that process exits successfully. -/
def StartService (runOk : List String → Bool) (target : String) : HandlerResult :=
  if target == "" then HandlerResult.mk 400 []
  else
    let argv := ["systemctl", "--user", "start", target]
    if runOk argv then HandlerResult.mk 200 [Effect.spawn argv]
    else HandlerResult.mk 500 [Effect.spawn argv]

/-- Handler `StopService`: as `StartService` with the `stop` verb. -/
def StopService (runOk : List String → Bool) (target : String) : HandlerResult :=
  if target == "" then HandlerResult.mk 400 []
  else
    let argv := ["systemctl", "--user", "stop", target]
    if runOk argv then HandlerResult.mk 200 [Effect.spawn argv]
    else HandlerResult.mk 500 [Effect.spawn argv]

/-- Handler `RestartService`: as `StartService` with the `restart` verb. -/
def RestartService (runOk : List String → Bool) (target : String) : HandlerResult :=
  if target == "" then HandlerResult.mk 400 []
  else
    let argv := ["systemctl", "--user", "restart", target]
    if runOk argv then HandlerResult.mk 200 [Effect.spawn argv]
    else HandlerResult.mk 500 [Effect.spawn argv]

/-- Handler `WriteFile`: requires non-empty `filename`, `filepath` and
`filecontent`; concatenates path and name with "/" and writes; `writeOk`
is the oracle saying whether `os.WriteFile` succeeds at that path.
Returns the result and the file system after the handler. -/
def WriteFile (writeOk : String → Bool) (fs : FS)
    (filename filepath filecontent : String) : HandlerResult × FS :=
  if filename == "" || filepath == "" || filecontent == "" then
    (HandlerResult.mk 400 [], fs)
  else
    let fullPath := filepath ++ "/" ++ filename
    if writeOk fullPath then
      (HandlerResult.mk 200 [Effect.fileWrite fullPath filecontent],
        fsWrite fs fullPath filecontent)
    else (HandlerResult.mk 500 [Effect.fileWrite fullPath filecontent], fs)

/-- Handler `ReadFile`: requires non-empty `filename` and `filepath`; reads the
concatenated path and returns its content, failing with a 500 when the
file cannot be read. -/
def ReadFile (fs : FS) (filename filepath : String) :
    HandlerResult × Option String :=
  if filename == "" || filepath == "" then (HandlerResult.mk 400 [], none)
  else
    let fullPath := filepath ++ "/" ++ filename
    match fsRead fs fullPath with
    | none => (HandlerResult.mk 500 [Effect.fileRead fullPath], none)
    | some content =>
      (HandlerResult.mk 200 [Effect.fileRead fullPath], some content)

/-- Handler `ScheduleTask`: requires non-empty `time` and `command`; pipes the
command into `at` through the shell via `executeCommand`. -/
def ScheduleTask (sh : String → ExecResult) (time command : String) :
    HandlerResult :=
  if time == "" || command == "" then HandlerResult.mk 400 []
  else
    let atCommand := "echo \"" ++ command ++ "\" | at " ++ time
    match executeCommand sh atCommand with
    | Except.error _ => HandlerResult.mk 500 [Effect.shell atCommand]
    | Except.ok _ => HandlerResult.mk 200 [Effect.shell atCommand]

/-! ## Session, login and the authentication gate (main package) -/

/-- The environment-loaded configuration: the single credential pair and
the version string. -/
structure Config where
  USERNAME : String
  PASSWORD : String
  VERSION : String
deriving DecidableEq

/-- The decoded JSON body of a login request. -/
structure Creds where
  username : String
  password : String
deriving DecidableEq

/-- A session's single value slot: the stored identity under the "user"
key, or `none` when the session carries no identity. -/
def SessionSlot := Option String

/-- Handler `loginHandler` of the main package: a body that failed to decode
(`none`) yields 400 and leaves the session untouched; a matching
credential pair discards the previous session state and stores the
configured username; a mismatch yields 401 and leaves the session
untouched.  Returns the status and the session slot after the request. -/
def loginHandler (cfg : Config) (body : Option Creds) (sess : Option String) :
    Nat × Option String :=
  match body with
  | none => (400, sess)
  | some creds =>
    if creds.username == cfg.USERNAME && creds.password == cfg.PASSWORD then
      (200, some cfg.USERNAME)
    else (401, sess)

/-! ## Router composition and dispatch -/

/-- HTTP methods used by the router registrations. -/
inductive Method
| GET | POST | DELETE | OPTIONS
deriving DecidableEq

/-- Identifiers of the registered handlers. -/
inductive HandlerId
| loginH | versionH | optionsH
| listServicesH | startServiceH | stopServiceH | restartServiceH
| writeFileH | readFileH | scheduleTaskH
deriving DecidableEq

/-- A registered route: path, accepted methods, whether the handler is
wrapped in the `isAuthenticated` middleware, and the handler. -/
structure Route where
  path : String
  methods : List Method
  authGated : Bool
  handler : HandlerId
deriving DecidableEq

/-- What dispatching a request produces: no matching route, a 401 from
the authentication gate, or the named handler running. -/
inductive DispatchResult
| notFound
| unauthorized
| handled (h : HandlerId)
deriving DecidableEq

/-- Middleware `isAuthenticated` of the main package: run the wrapped handler when
the session carries a stored identity, otherwise reply 401. -/
def isAuthenticated (sessionUser : Option String) (next : DispatchResult) :
    DispatchResult :=
  match sessionUser with
  | some _ => next
  | none => DispatchResult.unauthorized

/-- Function `RegisterSystemRoutes` of routes/route_system.go: the seven routes of
the "/system" subrouter; none is wrapped in the authentication gate. -/
def RegisterSystemRoutes : List Route :=
  [ Route.mk ("/system" ++ "/services") [Method.GET] false HandlerId.listServicesH,
    Route.mk ("/system" ++ "/services/start") [Method.POST] false HandlerId.startServiceH,
    Route.mk ("/system" ++ "/services/stop") [Method.POST] false HandlerId.stopServiceH,
    Route.mk ("/system" ++ "/services/restart") [Method.POST] false HandlerId.restartServiceH,
    Route.mk ("/system" ++ "/write") [Method.POST] false HandlerId.writeFileH,
    Route.mk ("/system" ++ "/read") [Method.GET] false HandlerId.readFileH,
    Route.mk ("/system" ++ "/at") [Method.POST] false HandlerId.scheduleTaskH ]

/-- Modelled from the spec: the route table of section 6.  The main
package (src/unnamed/part_000) registers "/login" (rate-limited, not
auth-gated) and "/version" (wrapped in `isAuthenticated`), plus the
OPTIONS preflight registrations; the call that registers the "/system"
routes is not among the provided sources, only `RegisterSystemRoutes`
itself is, so the composition includes `RegisterSystemRoutes` exactly as
the spec's HTTP-surface table states. -/
def mainRoutes : List Route :=
  [ Route.mk "/login" [Method.POST, Method.OPTIONS] false HandlerId.loginH,
    Route.mk "/version" [Method.GET, Method.OPTIONS] true HandlerId.versionH,
    Route.mk "/login" [Method.OPTIONS] false HandlerId.optionsH,
    Route.mk "/version" [Method.OPTIONS] false HandlerId.optionsH ]
  ++ RegisterSystemRoutes

/-- Dispatch a request: find the first route matching path and method;
apply the `isAuthenticated` gate when the route is wrapped in it. -/
def dispatch (routes : List Route) (path : String) (m : Method)
    (sessionUser : Option String) : DispatchResult :=
  match List.find? (fun rt => rt.path == path && rt.methods.contains m) routes with
  | none => DispatchResult.notFound
  | some rt =>
    if rt.authGated then isAuthenticated sessionUser (DispatchResult.handled rt.handler)
    else DispatchResult.handled rt.handler

/-! ## Rate limiter -/

/-- A limiter configuration: window length in seconds and request
ceiling, as in `limiter.Rate`. -/
structure Rate where
  period : Nat
  limit : Nat
deriving DecidableEq

/-- The `generalRate` of the main package: 10 requests per 1 minute. -/
def generalRate : Rate := Rate.mk 60 10

/-- Limiter bucket state: one counter per (client, window index) key, as
an association list. -/
def LimiterState := List ((String × Nat) × Nat)

/-- The limiter store at process start: empty buckets. -/
def emptyLimiterState : LimiterState := []

/-- Count recorded for a key, zero when the bucket is fresh. -/
def bucketCount (st : LimiterState) (key : String × Nat) : Nat :=
  match List.find? (fun e => e.1 == key) st with
  | none => 0
  | some e => e.2

/-- Record a new count for a key, shadowing the previous entry. -/
def bucketSet (st : LimiterState) (key : String × Nat) (c : Nat) : LimiterState :=
  (key, c) :: List.filter (fun e => !(e.1 == key)) st

/-- Modelled from the spec: the third-party limiter middleware, which is
not part of this repository's sources, as the fixed-window counter of
sections 3 and 4.2 — a rolling count per client against a period and
limit; a request increments its window's count and passes exactly when
the count stays within the limit. -/
def limiterCheck (rate : Rate) (st : LimiterState) (client : String)
    (time : Nat) : Bool × LimiterState :=
  let key := (client, time / rate.period)
  let c := bucketCount st key + 1
  (decide (c ≤ rate.limit), bucketSet st key c)

/-- One rate-limited request: when the limiter rejects, the reply is 429
and the handler does not run; otherwise the handler runs and its status
is the reply.  The boolean records whether the handler ran. -/
def limitedRequest (rate : Rate) (st : LimiterState) (client : String)
    (time : Nat) (handlerStatus : Nat) : (Nat × Bool) × LimiterState :=
  let r := limiterCheck rate st client time
  if r.1 then ((handlerStatus, true), r.2) else ((429, false), r.2)

/-- Run a sequence of rate-limited requests from one client at the given
times, threading the limiter state. -/
def runRequests (rate : Rate) (st : LimiterState) (client : String)
    (handlerStatus : Nat) : List Nat → List (Nat × Bool)
  | [] => []
  | t :: ts =>
    let r := limitedRequest rate st client t handlerStatus
    r.1 :: runRequests rate r.2 client handlerStatus ts

/-- A shell whose processes succeed and write to both output streams:
used to separate captured standard output from standard error. -/
def stderrShell : String → ExecResult := fun _ => ExecResult.mk "out" "err" 0

/-- A shell whose processes exit nonzero: every `executeCommand` fails. -/
def failShell : String → ExecResult := fun _ => ExecResult.mk "" "" 1

/-- A shell that prints one service line and one socket line. -/
def listingShell : String → ExecResult :=
  fun _ => ExecResult.mk
    "foo.service loaded active running Foo daemon\nbar.socket loaded active listening Bar socket\n" "" 0

end Napi

namespace Napi

lemma limiterCheck_same_window (client : String) (k : Nat) :
    limiterCheck generalRate [((client, 0), k)] client 0 =
      (decide (k + 1 ≤ 10), [((client, 0), k + 1)]) := by
  simp [limiterCheck, generalRate, bucketCount, bucketSet, List.find?,
    List.filter, beq_self_eq_true]

lemma limitedRequest_pass (client : String) (hs k : Nat) (h : k + 1 ≤ 10) :
    limitedRequest generalRate [((client, 0), k)] client 0 hs =
      ((hs, true), [((client, 0), k + 1)]) := by
  simp [limitedRequest, limiterCheck_same_window, h]

lemma limitedRequest_reject (client : String) (hs : Nat) :
    limitedRequest generalRate [((client, 0), 10)] client 0 hs =
      ((429, false), [((client, 0), 11)]) := by
  simp [limitedRequest, limiterCheck_same_window]

lemma limitedRequest_next_window (client : String) (hs : Nat) :
    limitedRequest generalRate [((client, 0), 11)] client 60 hs =
      ((hs, true), [((client, 1), 1), ((client, 0), 11)]) := by
  have hne : ((client, (0 : Nat)) == (client, (1 : Nat))) = false := by simp
  simp [limitedRequest, limiterCheck, generalRate, bucketCount, bucketSet,
    List.find?, List.filter, hne]

lemma run_window0 (client : String) (hs : Nat) :
    ∀ (m k : Nat), k + m ≤ 10 → ∀ rest : List Nat,
      runRequests generalRate [((client, 0), k)] client hs
          (List.replicate m 0 ++ rest) =
        List.replicate m (hs, true) ++
          runRequests generalRate [((client, 0), k + m)] client hs rest := by
  intro m
  induction m with
  | zero => intro k h rest; simp
  | succ n ih =>
    intro k h rest
    rw [List.replicate_succ, List.cons_append, runRequests]
    rw [limitedRequest_pass client hs k (by omega)]
    rw [ih (k + 1) (by omega) rest, List.replicate_succ]
    simp [Nat.add_comm, Nat.add_assoc, Nat.add_left_comm]

/-- C7: with the general limiter configured at 10 requests per 1-minute
window, for every client, the first 10 same-window requests pass, the
11th is rejected with 429 before the handler runs, and a request in the
next window passes again. -/
theorem general_limiter_eleventh_rejected (client : String) (hs : Nat) :
    runRequests generalRate emptyLimiterState client hs
        (List.replicate 11 0 ++ [60]) =
      List.replicate 10 (hs, true) ++ [(429, false), (hs, true)] := by
  have hshape : (List.replicate 11 0 ++ [60] : List Nat) =
      0 :: (List.replicate 9 0 ++ [0, 60]) := by decide
  have h0 : limitedRequest generalRate emptyLimiterState client 0 hs =
      ((hs, true), [((client, 0), 1)]) := by
    simp [limitedRequest, limiterCheck, generalRate, emptyLimiterState,
      bucketCount, bucketSet, List.find?, List.filter]
  rw [hshape, runRequests, h0]
  rw [run_window0 client hs 9 1 (by omega) [0, 60]]
  rw [runRequests, limitedRequest_reject client hs]
  rw [runRequests, limitedRequest_next_window client hs]
  rw [runRequests]
  simp [List.replicate_succ]

/-- C1: in the composed router the authentication gate wraps only the
"/version" route, and every "/system" route dispatches to its handler
even when the request carries no session identity (it is not rejected
with 401), while "/version" without a session is rejected. -/
theorem system_routes_reachable_without_session :
    (∀ rt ∈ mainRoutes, rt.authGated = true → rt.path = "/version") ∧
    dispatch mainRoutes "/system/services" Method.GET none =
      DispatchResult.handled HandlerId.listServicesH ∧
    dispatch mainRoutes "/system/services/start" Method.POST none =
      DispatchResult.handled HandlerId.startServiceH ∧
    dispatch mainRoutes "/system/services/stop" Method.POST none =
      DispatchResult.handled HandlerId.stopServiceH ∧
    dispatch mainRoutes "/system/services/restart" Method.POST none =
      DispatchResult.handled HandlerId.restartServiceH ∧
    dispatch mainRoutes "/system/write" Method.POST none =
      DispatchResult.handled HandlerId.writeFileH ∧
    dispatch mainRoutes "/system/read" Method.GET none =
      DispatchResult.handled HandlerId.readFileH ∧
    dispatch mainRoutes "/system/at" Method.POST none =
      DispatchResult.handled HandlerId.scheduleTaskH ∧
    dispatch mainRoutes "/version" Method.GET none =
      DispatchResult.unauthorized := by
  decide

/-- C2: a login with any credential pair different from the configured
pair returns 401 and leaves the session slot unchanged. -/
theorem login_rejects_wrong_credentials (cfg : Config) (creds : Creds)
    (sess : Option String)
    (h : ¬(creds.username = cfg.USERNAME ∧ creds.password = cfg.PASSWORD)) :
    loginHandler cfg (some creds) sess = (401, sess) := by
  by_cases h1 : creds.username = cfg.USERNAME
  · have h2 : creds.password ≠ cfg.PASSWORD := fun hp => h ⟨h1, hp⟩
    have e2 : (creds.password == cfg.PASSWORD) = false :=
      beq_eq_false_iff_ne.mpr h2
    simp [loginHandler, h1, e2]
  · have e1 : (creds.username == cfg.USERNAME) = false :=
      beq_eq_false_iff_ne.mpr h1
    simp [loginHandler, e1]

/-- Witness for C2 at a concrete configuration and wrong password. -/
theorem login_rejects_wrong_credentials_witness :
    loginHandler (Config.mk "admin" "secret" "1.0")
      (some (Creds.mk "admin" "wrong")) none = (401, none) :=
  login_rejects_wrong_credentials (Config.mk "admin" "secret" "1.0")
    (Creds.mk "admin" "wrong") none (by decide)

/-- C10: a login request whose body fails to decode yields 400, not 401,
and leaves the session slot unchanged. -/
theorem login_undecodable_body_bad_request (cfg : Config)
    (sess : Option String) : loginHandler cfg none sess = (400, sess) := rfl

/-- C9: starting from a session that is empty or holds the configured
username, any login request leaves the session empty or holding exactly
the configured username; and the authentication gate is the binary test
of identity presence. -/
theorem session_identity_unique (cfg : Config) (body : Option Creds)
    (sess : Option String)
    (h : sess = none ∨ sess = some cfg.USERNAME) :
    ((loginHandler cfg body sess).2 = none ∨
      (loginHandler cfg body sess).2 = some cfg.USERNAME) ∧
    (∀ next, isAuthenticated sess next =
      if sess.isSome then next else DispatchResult.unauthorized) := by
  constructor
  · match body with
    | none => simpa [loginHandler] using h
    | some creds =>
      by_cases hc :
          (creds.username == cfg.USERNAME && creds.password == cfg.PASSWORD) = true
      · simp [loginHandler, hc]
      · rw [Bool.not_eq_true] at hc
        simpa [loginHandler, hc] using h
  · intro next
    cases sess <;> simp [isAuthenticated]

/-- Witness for C9 at a concrete configuration, body and session. -/
theorem session_identity_unique_witness :
    ((loginHandler (Config.mk "admin" "secret" "1.0")
        (some (Creds.mk "admin" "secret")) none).2 = none ∨
      (loginHandler (Config.mk "admin" "secret" "1.0")
        (some (Creds.mk "admin" "secret")) none).2 = some "admin") ∧
    (∀ next, isAuthenticated none next =
      if (none : Option String).isSome then next
      else DispatchResult.unauthorized) :=
  session_identity_unique (Config.mk "admin" "secret" "1.0")
    (some (Creds.mk "admin" "secret")) none (Or.inl rfl)

/-- C8 counterexample: the executor captures standard output only, so on
success with non-empty standard error the returned text is not the
combined output of the two streams. -/
theorem executeCommand_not_combined_output :
    executeCommand stderrShell "true" = Except.ok "out" ∧
    (stderrShell "true").stderr = "err" ∧
    executeCommand stderrShell "true" ≠
      Except.ok ((stderrShell "true").stdout ++ (stderrShell "true").stderr) := by
  refine ⟨rfl, rfl, ?_⟩
  intro hcontra
  exact absurd (Except.ok.inj hcontra) (by decide)

/-- C8 (amended): the executor runs the command line through the shell
and, on success, returns exactly the captured standard output as text. -/
theorem executeCommand_returns_stdout (sh : String → ExecResult)
    (cmd : String) (h : (sh cmd).exitCode = 0) :
    executeCommand sh cmd = Except.ok (sh cmd).stdout := by
  simp [executeCommand, h]

/-- Witness for the amended C8 at a concrete shell and command. -/
theorem executeCommand_returns_stdout_witness :
    executeCommand stderrShell "ls" = Except.ok "out" :=
  executeCommand_returns_stdout stderrShell "ls" rfl

/-- C3: every handler with required request parameters replies 400 on
any absent-or-empty parameter and performs no externally visible side
effect: no process is spawned, no file is read or written, no task is
scheduled, and the file system is untouched. -/
theorem handlers_reject_missing_params (runOk : List String → Bool)
    (writeOk : String → Bool) (sh : String → ExecResult) (fs : FS) :
    (∀ t, t = "" → StartService runOk t = HandlerResult.mk 400 []) ∧
    (∀ t, t = "" → StopService runOk t = HandlerResult.mk 400 []) ∧
    (∀ t, t = "" → RestartService runOk t = HandlerResult.mk 400 []) ∧
    (∀ fn fp fc, fn = "" ∨ fp = "" ∨ fc = "" →
      WriteFile writeOk fs fn fp fc = (HandlerResult.mk 400 [], fs)) ∧
    (∀ fn fp, fn = "" ∨ fp = "" →
      ReadFile fs fn fp = (HandlerResult.mk 400 [], none)) ∧
    (∀ tm cmd, tm = "" ∨ cmd = "" →
      ScheduleTask sh tm cmd = HandlerResult.mk 400 []) := by
  refine ⟨?_, ?_, ?_, ?_, ?_, ?_⟩
  · intro t ht; subst ht; rfl
  · intro t ht; subst ht; rfl
  · intro t ht; subst ht; rfl
  · intro fn fp fc h
    rcases h with h | h | h <;> subst h <;> simp [WriteFile]
  · intro fn fp h
    rcases h with h | h <;> subst h <;> simp [ReadFile]
  · intro tm cmd h
    rcases h with h | h <;> subst h <;> simp [ScheduleTask]

/-- Witness for C3: each handler at a concrete missing parameter. -/
theorem handlers_reject_missing_params_witness :
    StartService (fun _ => true) "" = HandlerResult.mk 400 [] ∧
    StopService (fun _ => true) "" = HandlerResult.mk 400 [] ∧
    RestartService (fun _ => true) "" = HandlerResult.mk 400 [] ∧
    WriteFile (fun _ => true) ([] : FS) "" "/tmp" "data" =
      (HandlerResult.mk 400 [], ([] : FS)) ∧
    ReadFile ([] : FS) "notes.txt" "" = (HandlerResult.mk 400 [], none) ∧
    ScheduleTask (fun _ => ExecResult.mk "" "" 0) "" "reboot" =
      HandlerResult.mk 400 [] := by
  obtain ⟨p1, p2, p3, p4, p5, p6⟩ := handlers_reject_missing_params
    (fun _ => true) (fun _ => true) (fun _ => ExecResult.mk "" "" 0) ([] : FS)
  exact ⟨p1 "" rfl, p2 "" rfl, p3 "" rfl, p4 "" "/tmp" "data" (Or.inl rfl),
    p5 "notes.txt" "" (Or.inr rfl), p6 "" "reboot" (Or.inl rfl)⟩

lemma parseUnitsList_filterMap (unitType : String) (lines : List String) :
    parseUnitsList unitType lines = lines.filterMap (fun line =>
      let fs := fields line
      if 5 ≤ fs.length ∧ strContains (fs.getD 0 "") unitType = true then
        some (Napi.Unit.mk (fs.getD 0 "") (fs.getD 1 "") (fs.getD 2 "")
          (fs.getD 3 "") (String.intercalate " " (fs.drop 4)))
      else none) := by
  induction lines with
  | nil => rfl
  | cons line rest ih =>
    by_cases h1 : (fields line).length < 5
    · have h1n : ¬(5 ≤ (fields line).length ∧
          strContains ((fields line).getD 0 "") unitType = true) := by
        intro hc; omega
      simp [parseUnitsList, List.filterMap_cons, h1, h1n, ih,
        -List.getD_eq_getElem?_getD]
    · by_cases h2 : strContains ((fields line).getD 0 "") unitType = true
      · have hp : 5 ≤ (fields line).length ∧
            strContains ((fields line).getD 0 "") unitType = true :=
          ⟨by omega, h2⟩
        simp [parseUnitsList, List.filterMap_cons, h1, h2, hp, ih,
          -List.getD_eq_getElem?_getD]
      · have h2f : strContains ((fields line).getD 0 "") unitType = false := by
          rwa [Bool.not_eq_true] at h2
        have h1n : ¬(5 ≤ (fields line).length ∧
            strContains ((fields line).getD 0 "") unitType = true) := by
          intro hc; exact h2 hc.2
        simp [parseUnitsList, List.filterMap_cons, h1, h2f, h1n, ih,
          -List.getD_eq_getElem?_getD]

/-- A listing with a header line, two well-formed service lines and one
socket line, as `systemctl --user list-units` would print it. -/
def sampleListing : String :=
  "UNIT LOAD ACTIVE SUB DESCRIPTION\nfoo.service loaded active running Foo daemon\nbar.service loaded inactive dead Bar unit\nfoo.socket loaded active listening Foo socket\n"

set_option maxRecDepth 40000 in
/-- C4: for every raw listing and suffix, `parseUnits` returns, with no
error, exactly the lines having at least five whitespace-separated
fields whose first field contains the suffix, in input order, as Units
whose first four fields are name/load/active/sub and whose description
rejoins the rest with single spaces; concretely, a listing with a header
line, two well-formed `.service` lines and a `foo.socket` line yields
exactly the two service units in input order. -/
theorem parseUnits_matches_spec :
    (∀ data unitType, parseUnits data unitType =
      Except.ok (specParseUnits data unitType)) ∧
    parseUnits sampleListing ".service" = Except.ok
      [Napi.Unit.mk "foo.service" "loaded" "active" "running" "Foo daemon",
       Napi.Unit.mk "bar.service" "loaded" "inactive" "dead" "Bar unit"] := by
  constructor
  · intro data unitType
    rw [parseUnits, specParseUnits, parseUnitsList_filterMap]
  · rfl

/-- C5: the list-units handler aborts with a 500 and no body when either
listing command fails, and produces the 200 response with both parsed
sequences exactly when both listing commands succeed. -/
theorem list_services_no_partial_results (sh : String → ExecResult) :
    ((∃ e, executeCommand sh svcListCmd = Except.error e) ∨
      (∃ e, executeCommand sh sockListCmd = Except.error e) →
      (ListServices sh).status = 500 ∧ (ListServices sh).body = none) ∧
    (∀ s1 s2, executeCommand sh svcListCmd = Except.ok s1 →
      executeCommand sh sockListCmd = Except.ok s2 →
      ListServices sh = ListResult.mk 200
        (some (parseUnitsList ".service" (splitOnNewline s1),
          parseUnitsList ".socket" (splitOnNewline s2)))
        [Effect.shell svcListCmd, Effect.shell sockListCmd]) := by
  constructor
  · intro h
    cases hsvc : executeCommand sh svcListCmd with
    | error e => simp [ListServices, hsvc]
    | ok s1 =>
      cases hsock : executeCommand sh sockListCmd with
      | error e => simp [ListServices, hsvc, hsock, parseUnits]
      | ok s2 =>
        exfalso
        rcases h with ⟨e, he⟩ | ⟨e, he⟩
        · rw [hsvc] at he; exact Except.noConfusion he
        · rw [hsock] at he; exact Except.noConfusion he
  · intro s1 s2 hsvc hsock
    simp [ListServices, hsvc, hsock, parseUnits]

/-- Witness for C5: a failing shell aborts the whole response; a shell
that prints one service and one socket line produces the full body. -/
theorem list_services_no_partial_results_witness :
    ((ListServices failShell).status = 500 ∧
      (ListServices failShell).body = none) ∧
    ListServices listingShell = ListResult.mk 200
      (some (parseUnitsList ".service"
          (splitOnNewline (listingShell svcListCmd).stdout),
        parseUnitsList ".socket"
          (splitOnNewline (listingShell sockListCmd).stdout)))
      [Effect.shell svcListCmd, Effect.shell sockListCmd] :=
  ⟨(list_services_no_partial_results failShell).1
      (Or.inl ⟨"command failed", rfl⟩),
    (list_services_no_partial_results listingShell).2
      (listingShell svcListCmd).stdout (listingShell sockListCmd).stdout
      rfl rfl⟩

/-- C6: after a successful write of non-empty content to a non-empty
filename under a non-empty directory path, an immediate read of the same
filename and path returns exactly the written content. -/
theorem write_read_roundtrip (writeOk : String → Bool) (fs : FS)
    (filename filepath content : String)
    (h1 : filename ≠ "") (h2 : filepath ≠ "") (h3 : content ≠ "")
    (h4 : writeOk (filepath ++ "/" ++ filename) = true) :
    (WriteFile writeOk fs filename filepath content).1.status = 200 ∧
    ReadFile (WriteFile writeOk fs filename filepath content).2
        filename filepath =
      (HandlerResult.mk 200 [Effect.fileRead (filepath ++ "/" ++ filename)],
        some content) := by
  have e1 : (filename == "") = false := beq_eq_false_iff_ne.mpr h1
  have e2 : (filepath == "") = false := beq_eq_false_iff_ne.mpr h2
  have e3 : (content == "") = false := beq_eq_false_iff_ne.mpr h3
  constructor
  · simp [WriteFile, e1, e2, e3, h4]
  · simp [WriteFile, ReadFile, e1, e2, e3, h4, fsWrite, fsRead, List.find?,
      beq_self_eq_true]

/-- Witness for C6 at a concrete file name, path and content. -/
theorem write_read_roundtrip_witness :
    (WriteFile (fun _ => true) ([] : FS) "a.txt" "/tmp" "hello").1.status =
      200 ∧
    ReadFile (WriteFile (fun _ => true) ([] : FS) "a.txt" "/tmp" "hello").2
        "a.txt" "/tmp" =
      (HandlerResult.mk 200 [Effect.fileRead ("/tmp" ++ "/" ++ "a.txt")],
        some "hello") :=
  write_read_roundtrip (fun _ => true) ([] : FS) "a.txt" "/tmp" "hello"
    (by decide) (by decide) (by decide) rfl

end Napi
